import Mathlib

/-!
Verification development for the Synapse voice-command repository.

This file shallowly embeds the pieces of the repository that the
specification's testable properties talk about:

* `src/parser/command_parser.py` — `CommandType`, `ParsedCommand`,
  `CommandParser.parse` (ordered regex intent matching) and
  `CommandEnhancer.enhance` (keyword-based metadata);
* `grpc_clients.py` / `src/grpc_client/marker_client.py` — result shaping of
  the remote-service client request methods;
* `src/output/writer.py` — filename sanitisation, fenced-code-block
  extraction, and the save/read round trip;
* `src/main.py` — the dispatcher handlers' empty-target guards;
* `voice_input.py` — the continuous listening loop.

Python regular expressions are embedded by a small executable matching
engine covering exactly the constructs the declared patterns use
(case-insensitive literals, `\s` and `.` classes, alternation,
non-capturing groups, `?`, `+`, `*`, one capture group, `^`, `$`), with
Python `re.search` semantics: leftmost match position wins, alternatives
are tried left to right, quantifiers are greedy with backtracking.
Character classes are modelled at ASCII precision (the repository's
patterns and keyword lists are pure ASCII).
-/

/-! ### Python string primitives (ASCII precision) -/

/-- Whitespace as recognised by Python's `str.strip` and the regex class
`\s`, restricted to ASCII. -/
def pyIsSpace (c : Char) : Bool :=
  c == ' ' || c == '\t' || c == '\n' || c == '\r' || c == '\x0b' || c == '\x0c'

/-- Uppercase-to-lowercase table for ASCII letters, used to model
Python's `str.lower` and `re.IGNORECASE`. -/
def lowerPairs : List (Char × Char) :=
  [('A','a'), ('B','b'), ('C','c'), ('D','d'), ('E','e'), ('F','f'),
   ('G','g'), ('H','h'), ('I','i'), ('J','j'), ('K','k'), ('L','l'),
   ('M','m'), ('N','n'), ('O','o'), ('P','p'), ('Q','q'), ('R','r'),
   ('S','s'), ('T','t'), ('U','u'), ('V','v'), ('W','w'), ('X','x'),
   ('Y','y'), ('Z','z')]

/-- Lowercase a single character (ASCII model of Python `str.lower`). -/
def pyToLower (c : Char) : Char :=
  ((lowerPairs.find? (fun p => p.1 == c)).map (fun p => p.2)).getD c

/-- Whether a character is an ASCII uppercase letter. -/
def isUpperB (c : Char) : Bool :=
  (lowerPairs.find? (fun p => p.1 == c)).isSome

/-- Lowercase a character list. -/
def pyLowerL (l : List Char) : List Char := l.map pyToLower

/-- Python `str.strip` on a character list. -/
def pyStripL (l : List Char) : List Char :=
  ((l.dropWhile pyIsSpace).reverse.dropWhile pyIsSpace).reverse

/-- Python `str.strip` on a string. -/
def pyStrip (s : String) : String := ⟨pyStripL s.data⟩

/-- First index (if any) at which `pat` occurs as a contiguous sublist of
`s`.  Models `str.find` / the position of the leftmost regex match of a
literal. -/
def subIdx? (pat : List Char) : List Char → Option Nat
  | [] => if pat.isEmpty then some 0 else none
  | c :: rest =>
      if pat.isPrefixOf (c :: rest) then some 0
      else (subIdx? pat rest).map Nat.succ

/-- Whether `pat` occurs as a contiguous sublist of `s`
(Python's `pat in s` on strings). -/
def isSubL (pat s : List Char) : Bool := (subIdx? pat s).isSome

/-! ### A small regex engine with Python `re.search` semantics -/

/-- Single-character classes appearing in the repository's patterns. -/
inductive CC where
  /-- a literal character under `re.IGNORECASE`; `c` is stored lowercase -/
  | litCI (c : Char)
  /-- the class `\s` -/
  | space
  /-- the metacharacter `.` (anything except a newline; no `re.DOTALL`) -/
  | notNL
  deriving DecidableEq

/-- Test a character against a class. -/
def CC.test : CC → Char → Bool
  | .litCI c, x => x == c || pyToLower x == c
  | .space, x => pyIsSpace x
  | .notNL, x => !(x == '\n')

/-- Regex abstract syntax: exactly the constructs used by
`CommandParser.PATTERNS`.  Repetition is only ever applied to a
single-character class there, which the syntax reflects. -/
inductive RE where
  | eps
  /-- the anchor `$` (at end of the searched text; the searched text is
  always pre-stripped, so the before-final-newline case cannot arise) -/
  | eos
  | cls (k : CC)
  | cat (a b : RE)
  | alt (a b : RE)
  /-- greedy `?` -/
  | opt (a : RE)
  /-- greedy `+` on a class -/
  | plus (k : CC)
  /-- greedy `*` on a class -/
  | star (k : CC)
  /-- the single capturing group of a pattern -/
  | grp (a : RE)
  deriving DecidableEq

/-- Suffixes reachable by consuming zero or more `k`-characters, in greedy
(longest-first) backtracking order. -/
def starRun (k : CC) : List Char → List (List Char)
  | [] => [[]]
  | c :: rest =>
      if k.test c then starRun k rest ++ [c :: rest] else [c :: rest]

/-- All ways a regex can match a prefix of `s`, in Python backtracking
priority order.  Each result is the remaining suffix paired with the text
captured by the (single) group, if the group participated. -/
def mrun : RE → List Char → Option (List Char) → List (List Char × Option (List Char))
  | .eps, s, c => [(s, c)]
  | .eos, s, c => if s.isEmpty then [(s, c)] else []
  | .cls k, s, c =>
      match s with
      | [] => []
      | x :: xs => if k.test x then [(xs, c)] else []
  | .cat a b, s, c => (mrun a s c).flatMap (fun p => mrun b p.1 p.2)
  | .alt a b, s, c => mrun a s c ++ mrun b s c
  | .opt a, s, c => mrun a s c ++ [(s, c)]
  | .plus k, s, c =>
      (match s with
       | [] => []
       | x :: xs => if k.test x then starRun k xs else []).map (fun s' => (s', c))
  | .star k, s, c => (starRun k s).map (fun s' => (s', c))
  | .grp a, s, c =>
      (mrun a s c).map (fun p => (p.1, some (s.take (s.length - p.1.length))))

/-- A compiled pattern: `anchored` records a leading `^`. -/
structure Pat where
  anchored : Bool
  re : RE
  deriving DecidableEq

/-- Try the pattern at successive start positions, left to right
(`re.search`).  Returns `some g` when the pattern matches somewhere, where
`g` is group 1 of the chosen (leftmost, highest-priority) match, and
`none` when there is no match. -/
def scanRe (r : RE) : List Char → Option (Option (List Char))
  | [] =>
      match (mrun r [] none).head? with
      | some p => some p.2
      | none => none
  | c :: rest =>
      match (mrun r (c :: rest) none).head? with
      | some p => some p.2
      | none => scanRe r rest

/-- `re.Pattern.search` for a compiled pattern. -/
def psearch (p : Pat) (s : List Char) : Option (Option (List Char)) :=
  if p.anchored then
    match (mrun p.re s none).head? with
    | some q => some q.2
    | none => none
  else scanRe p.re s

/-! ### Pattern construction helpers -/

/-- Case-insensitive literal for a (lowercase-in-source) string. -/
def lit (s : String) : RE :=
  s.data.foldr (fun c r => RE.cat (RE.cls (CC.litCI c)) r) RE.eps

/-- Concatenation of a list of regexes. -/
def rcat (l : List RE) : RE := l.foldr RE.cat RE.eps

/-- Ordered alternation `a|b|…` (leftmost alternative preferred). -/
def ralt (hd : RE) (tl : List RE) : RE := tl.foldl RE.alt hd

/-- The regex `\s+`. -/
def sp1 : RE := RE.plus CC.space

/-- The regex `\s*`. -/
def sp0 : RE := RE.star CC.space

/-- The regex `.` (any non-newline character). -/
def dotC : RE := RE.cls CC.notNL

/-- The capture group `(.+)`. -/
def grpDotPlus : RE := RE.grp (RE.plus CC.notNL)

/-- A non-capturing optional word followed by `\s+`, e.g. `(?:test\s+)?`. -/
def optWord (w : String) : RE := RE.opt (rcat [lit w, sp1])

/-- Optional trailing `s`, e.g. `scenarios?`. -/
def optS : RE := RE.opt (RE.cls (CC.litCI 's'))

/-! ### The command parser data model (`src/parser/command_parser.py`) -/

/-- Types of commands the system can handle (`CommandType` enum, in
declaration order).  The `DICTATE_SCEN` constructor embeds the source's
dictation command type. -/
inductive CommandType where
  | GENERATE_SCENARIOS
  | GENERATE_PLAYWRIGHT
  | DICTATE_SCEN
  | GENERATE_FROM_FILE
  | CODE_REVIEW
  | MARKER_RUN
  | MARKER_PREVIEW
  | MARKER_ROLLBACK
  | MARKER_ANALYZE
  | HELP
  | EXIT
  | UNKNOWN
  deriving DecidableEq

/-- Position of a command type in the enumeration declaration order. -/
def typeIdx : CommandType → Nat
  | .GENERATE_SCENARIOS => 0
  | .GENERATE_PLAYWRIGHT => 1
  | .DICTATE_SCEN => 2
  | .GENERATE_FROM_FILE => 3
  | .CODE_REVIEW => 4
  | .MARKER_RUN => 5
  | .MARKER_PREVIEW => 6
  | .MARKER_ROLLBACK => 7
  | .MARKER_ANALYZE => 8
  | .HELP => 9
  | .EXIT => 10
  | .UNKNOWN => 11

/-- Parameters attached by `CommandEnhancer.enhance` (the keys the code can
put into the `parameters` dict; a `none` field is an absent key). -/
structure EnhParams where
  category : Option String := none
  priority : Option String := none
  includes_validation : Option Bool := none
  test_type : Option String := none
  deriving DecidableEq

/-- The `ParsedCommand` dataclass. -/
structure ParsedCommand where
  command_type : CommandType
  target : Option String := none
  parameters : Option EnhParams := none
  raw_text : String := ""
  deriving DecidableEq

namespace CommandParser

/-- `CommandParser.PATTERNS`, flattened in iteration order: Python dicts
iterate in insertion order, so the types appear in enumeration
declaration order and within a type the patterns keep their listed
order.  Each entry is the compiled form of the source's regex. -/
def patList : List (CommandType × Pat) := [
  -- GENERATE_SCENARIOS
  (.GENERATE_SCENARIOS, ⟨false, rcat [ralt (lit "generate") [lit "create", lit "write"], sp1,
      optWord "test", lit "scenario", optS, sp1, optWord "for", grpDotPlus]⟩),
  (.GENERATE_SCENARIOS, ⟨false, rcat [ralt (lit "make") [lit "build"], sp1,
      optWord "test", lit "scenario", optS, sp1, optWord "for", grpDotPlus]⟩),
  (.GENERATE_SCENARIOS, ⟨false, rcat [lit "scenario", optS, sp1, optWord "for", grpDotPlus]⟩),
  -- GENERATE_PLAYWRIGHT
  (.GENERATE_PLAYWRIGHT, ⟨false, rcat [ralt (lit "generate") [lit "create", lit "write"], sp1,
      lit "playwright", sp1, RE.opt (rcat [lit "test", optS, sp1]), optWord "for", grpDotPlus]⟩),
  (.GENERATE_PLAYWRIGHT, ⟨false, rcat [ralt (lit "make") [lit "build"], sp1,
      lit "playwright", sp1, RE.opt (rcat [lit "test", optS, sp1]), optWord "for", grpDotPlus]⟩),
  (.GENERATE_PLAYWRIGHT, ⟨false, rcat [lit "playwright", sp1,
      RE.opt (rcat [lit "test", optS, sp1]), optWord "for", grpDotPlus]⟩),
  (.GENERATE_PLAYWRIGHT, ⟨false, rcat [ralt (lit "generate") [lit "create"], sp1,
      ralt (lit "e2e") [rcat [lit "end", dotC, lit "to", dotC, lit "end"]], sp1,
      lit "test", optS, sp1, optWord "for", grpDotPlus]⟩),
  -- DICTATE_SCENARIO
  (.DICTATE_SCEN, ⟨false, rcat [lit "dictate", sp1, optWord "a", optWord "test", lit "scenario"]⟩),
  (.DICTATE_SCEN, ⟨false, rcat [lit "record", sp1, optWord "a", optWord "test", lit "scenario"]⟩),
  (.DICTATE_SCEN, ⟨false, rcat [lit "start", sp1, lit "dictation"]⟩),
  -- GENERATE_FROM_FILE
  (.GENERATE_FROM_FILE, ⟨false, rcat [ralt (lit "generate") [lit "create"], sp1,
      RE.opt (rcat [lit "test", optS, sp1]), lit "from", sp1, optWord "file", grpDotPlus]⟩),
  (.GENERATE_FROM_FILE, ⟨false, rcat [ralt (lit "convert") [lit "transform"], sp1,
      optWord "file", grpDotPlus, sp1, lit "to", sp1, optWord "playwright", lit "test", optS]⟩),
  -- CODE_REVIEW
  (.CODE_REVIEW, ⟨false, rcat [ralt (lit "review") [lit "check"], sp1,
      optWord "code", optWord "in", grpDotPlus]⟩),
  (.CODE_REVIEW, ⟨false, rcat [lit "code", sp1, lit "review", sp1, optWord "for", grpDotPlus]⟩),
  -- MARKER_RUN
  (.MARKER_RUN, ⟨false, rcat [ralt (lit "run") [lit "add", lit "apply"], sp1,
      optWord "test", ralt (lit "id") [lit "ids", lit "marker"], sp1,
      ralt (lit "to") [lit "for", lit "on"], sp1, grpDotPlus]⟩),
  (.MARKER_RUN, ⟨false, rcat [lit "marker", sp1, ralt (lit "run") [lit "add"], sp1,
      optWord "on", grpDotPlus]⟩),
  (.MARKER_RUN, ⟨false, rcat [lit "add", sp1, lit "test", sp1, lit "id", optS, sp1,
      optWord "to", grpDotPlus]⟩),
  -- MARKER_PREVIEW
  (.MARKER_PREVIEW, ⟨false, rcat [ralt (lit "preview") [lit "show"], sp1,
      optWord "test", ralt (lit "id") [lit "ids", lit "marker"], sp1,
      RE.opt (rcat [lit "change", optS, sp1]), optWord "for", grpDotPlus]⟩),
  (.MARKER_PREVIEW, ⟨false, rcat [lit "marker", sp1, lit "preview", sp1, grpDotPlus]⟩),
  (.MARKER_PREVIEW, ⟨false, rcat [lit "dry", RE.opt dotC, lit "run", sp1, lit "marker", sp1,
      optWord "on", grpDotPlus]⟩),
  -- MARKER_ROLLBACK
  (.MARKER_ROLLBACK, ⟨false, rcat [ralt (lit "rollback") [lit "undo", lit "revert"], sp1,
      optWord "test", ralt (lit "id") [lit "ids", lit "marker"], sp1,
      RE.opt (rcat [lit "change", optS, sp1]), optWord "for", RE.opt grpDotPlus]⟩),
  (.MARKER_ROLLBACK, ⟨false, rcat [lit "marker", sp1, lit "rollback", sp0, RE.opt grpDotPlus]⟩),
  -- MARKER_ANALYZE
  (.MARKER_ANALYZE, ⟨false, rcat [ralt (lit "analyze") [lit "scan"], sp1,
      optWord "project", grpDotPlus, sp1, optWord "for", optWord "test",
      ralt (lit "id") [lit "ids"]]⟩),
  (.MARKER_ANALYZE, ⟨false, rcat [lit "marker", sp1, lit "analyze", sp1, grpDotPlus]⟩),
  -- HELP
  (.HELP, ⟨true, rcat [lit "help", RE.eos]⟩),
  (.HELP, ⟨true, rcat [lit "what", sp1, lit "can", sp1, lit "you", sp1, lit "do"]⟩),
  (.HELP, ⟨true, rcat [lit "show", sp1, lit "command", optS, RE.eos]⟩),
  -- EXIT
  (.EXIT, ⟨true, rcat [ralt (lit "exit") [lit "quit", lit "bye", lit "stop"], RE.eos]⟩),
  (.EXIT, ⟨true, rcat [lit "close", sp1, lit "synapse", RE.eos]⟩)]

/-- Build `target` from group 1 of a match: Python's
`match.group(1).strip() if match.group(1) else None`, with `None` also
when the pattern has no group or the group did not participate. -/
def targetOf (g : Option (List Char)) : Option String :=
  match g with
  | none => none
  | some l => if l.isEmpty then none else some ⟨pyStripL l⟩

/-- First pattern in the priority list that matches, with the winning
pattern's command type and group 1. -/
def firstMatch : List (CommandType × Pat) → List Char → Option (CommandType × Option (List Char))
  | [], _ => none
  | (ty, p) :: rest, s =>
      match psearch p s with
      | some g => some (ty, g)
      | none => firstMatch rest s

/-- The patterns a parse call tries, in order: every pattern up to and
including the first one that matches (all of them when none matches). -/
def triedPats : List (CommandType × Pat) → List Char → List (CommandType × Pat)
  | [], _ => []
  | p :: rest, s =>
      if (psearch p.2 s).isSome then [p] else p :: triedPats rest s

/-- `CommandParser.parse`. -/
def parse (text : String) : ParsedCommand :=
  let s := pyStripL text.data
  if s.isEmpty then
    { command_type := .UNKNOWN, raw_text := ⟨s⟩ }
  else
    match firstMatch patList s with
    | some (ty, g) => { command_type := ty, target := targetOf g, raw_text := ⟨s⟩ }
    | none => { command_type := .UNKNOWN, target := some ⟨s⟩, raw_text := ⟨s⟩ }

/-- Whether some declared pattern of the given command type matches the
(stripped) text. -/
def matchesType (ty : CommandType) (s : List Char) : Bool :=
  (patList.filter (fun x => x.1 == ty)).any (fun x => (psearch x.2 s).isSome)

end CommandParser

namespace CommandParser

/-! ### Lemmas about the priority scan -/

theorem firstMatch_eq_none_iff (l : List (CommandType × Pat)) (s : List Char) :
    firstMatch l s = none ↔ ∀ p ∈ l, psearch p.2 s = none := by
  induction l with
  | nil => simp [firstMatch]
  | cons hd tl ih =>
    simp only [firstMatch]
    cases h : psearch hd.2 s with
    | some g => simp [h]
    | none =>
      simp only [List.mem_cons]
      constructor
      · intro hfm p hp
        rcases hp with hp | hp
        · rw [hp]; exact h
        · exact (ih.mp hfm) p hp
      · intro hall
        exact ih.mpr (fun p hp => hall p (Or.inr hp))

theorem firstMatch_eq_some_of (l : List (CommandType × Pat)) (s : List Char)
    (i : Nat) (ty : CommandType) (p : Pat) (g : Option (List Char))
    (hget : l.get? i = some (ty, p)) (hm : psearch p s = some g)
    (hbefore : ∀ j q, j < i → l.get? j = some q → psearch q.2 s = none) :
    firstMatch l s = some (ty, g) := by
  induction l generalizing i with
  | nil => simp at hget
  | cons hd tl ih =>
    cases i with
    | zero =>
      simp only [List.get?] at hget
      cases hget
      simp [firstMatch, hm]
    | succ i' =>
      have h0 : psearch hd.2 s = none :=
        hbefore 0 hd (Nat.succ_pos i') rfl
      simp only [firstMatch, h0]
      exact ih i' hget (fun j q hj hq => hbefore (j + 1) q (Nat.succ_lt_succ hj) hq)

theorem firstMatch_spec (l : List (CommandType × Pat)) (s : List Char)
    (ty : CommandType) (g : Option (List Char))
    (h : firstMatch l s = some (ty, g)) :
    ∃ i p, l.get? i = some (ty, p) ∧ psearch p s = some g ∧
      ∀ j q, j < i → l.get? j = some q → psearch q.2 s = none := by
  induction l with
  | nil => simp [firstMatch] at h
  | cons hd tl ih =>
    simp only [firstMatch] at h
    cases hps : psearch hd.2 s with
    | some g' =>
      rw [hps] at h
      injection h with h'
      injection h' with h1 h2
      refine ⟨0, hd.2, ?_, ?_, ?_⟩
      · simp [← h1]
      · rw [hps, h2]
      · intro j q hj _; exact absurd hj (Nat.not_lt_zero j)
    | none =>
      rw [hps] at h
      rcases ih h with ⟨i, p, hget, hm, hb⟩
      refine ⟨i + 1, p, hget, hm, ?_⟩
      intro j q hj hq
      cases j with
      | zero =>
        simp only [List.get?] at hq
        cases hq; exact hps
      | succ j' => exact hb j' q (Nat.lt_of_succ_lt_succ hj) hq

theorem matchesType_iff (ty : CommandType) (s : List Char) :
    matchesType ty s = true ↔
      ∃ p, (ty, p) ∈ patList ∧ (psearch p s).isSome = true := by
  unfold matchesType
  rw [List.any_eq_true]
  constructor
  · rintro ⟨x, hx, hps⟩
    have hmem := (List.mem_filter.mp hx).1
    have hty : x.1 = ty := by
      have := (List.mem_filter.mp hx).2
      exact beq_iff_eq.mp (by simpa using this)
    exact ⟨x.2, by rw [← hty]; exact hmem, hps⟩
  · rintro ⟨p, hp, hps⟩
    exact ⟨(ty, p), List.mem_filter.mpr ⟨hp, by simp⟩, hps⟩

/-- The flattened priority list is sorted by enumeration order of the
command types (the dict lists the types in declaration order). -/
theorem patList_sorted :
    List.Pairwise (fun a b : CommandType × Pat => typeIdx a.1 ≤ typeIdx b.1) patList := by
  decide

/-- No declared pattern matches the empty (stripped) input. -/
theorem no_match_on_empty : ∀ p ∈ patList, psearch p.2 [] = none := by decide

/-- The declared pattern list has no duplicate entries. -/
theorem patList_nodup : patList.Nodup := by decide

theorem triedPats_take (l : List (CommandType × Pat)) (s : List Char) :
    ∃ n, triedPats l s = l.take n := by
  induction l with
  | nil => exact ⟨0, rfl⟩
  | cons hd tl ih =>
    by_cases h : (psearch hd.2 s).isSome = true
    · exact ⟨1, by simp [triedPats, h]⟩
    · rcases ih with ⟨n, hn⟩
      exact ⟨n + 1, by simp [triedPats, h, List.take_succ_cons, hn]⟩

end CommandParser

namespace CommandParser

theorem parse_eq_of_firstMatch (text : String) (ty : CommandType) (g : Option (List Char))
    (hne : pyStripL text.data ≠ [])
    (hfm : firstMatch patList (pyStripL text.data) = some (ty, g)) :
    parse text =
      { command_type := ty, target := targetOf g, raw_text := ⟨pyStripL text.data⟩ } := by
  unfold parse
  have hemp : (pyStripL text.data).isEmpty = false := by
    cases h : pyStripL text.data with
    | nil => exact absurd h hne
    | cons x l => rfl
  simp only [hemp, Bool.false_eq_true, if_false, hfm]

theorem parse_type_minimal (text : String) (ty : CommandType) (g : Option (List Char))
    (hfm : firstMatch patList (pyStripL text.data) = some (ty, g)) :
    ∀ T, matchesType T (pyStripL text.data) = true → typeIdx ty ≤ typeIdx T := by
  intro T hT
  rcases firstMatch_spec _ _ _ _ hfm with ⟨i, p, hget, _hm, hb⟩
  rcases (matchesType_iff _ _).mp hT with ⟨q, hq, hqs⟩
  rcases List.mem_iff_get?.mp hq with ⟨j, hj⟩
  by_cases hij : j < i
  · rw [hb j (T, q) hij hj] at hqs
    simp at hqs
  · rcases Nat.lt_or_ge i j with hlt | hge
    · rcases List.get?_eq_some.mp hget with ⟨hi', hgi⟩
      rcases List.get?_eq_some.mp hj with ⟨hj', hgj⟩
      have := List.pairwise_iff_get.mp patList_sorted ⟨i, hi'⟩ ⟨j, hj'⟩ hlt
      rw [hgi, hgj] at this
      exact this
    · have hij' : i = j := Nat.le_antisymm (Nat.le_of_not_lt hij) hge
      rw [hij'] at hget
      rw [hget] at hj
      injection hj with hj
      rw [show ty = ((ty, p) : CommandType × Pat).1 from rfl, hj]

end CommandParser

open CommandParser

/-- C1, counterexample: the input "preview marker changes for /app" matches
a declared MARKER_PREVIEW pattern, yet `parse` returns CODE_REVIEW (the
unanchored `(?:review|check)\s+…` pattern finds "review" inside "preview"
and CODE_REVIEW is declared earlier), so matching a pattern of type T does
not imply the result has type T. -/
theorem c1_counterexample :
    matchesType .MARKER_PREVIEW (pyStripL "preview marker changes for /app".data) = true ∧
    (parse "preview marker changes for /app").command_type = .CODE_REVIEW ∧
    CommandType.CODE_REVIEW ≠ CommandType.MARKER_PREVIEW := by
  exact ⟨by decide, by decide, by decide⟩

/-- C1 (amended): for every input whose FIRST matching pattern in the
declared priority order belongs to command type `ty`, `parse` returns a
`ParsedCommand` with `command_type = ty` and with `target` equal to the
trimmed first capture group of that pattern (`None` when the pattern has
no capturing group or the group did not participate in the match — both
handled by `targetOf`). -/
theorem c1_first_match_determines_result (text : String) (i : Nat)
    (ty : CommandType) (p : Pat) (g : Option (List Char))
    (hget : patList.get? i = some (ty, p))
    (hm : psearch p (pyStripL text.data) = some g)
    (hbefore : ∀ j q, j < i → patList.get? j = some q →
      psearch q.2 (pyStripL text.data) = none) :
    parse text =
      { command_type := ty, target := targetOf g, raw_text := ⟨pyStripL text.data⟩ } := by
  have hne : pyStripL text.data ≠ [] := by
    intro h0
    rw [h0] at hm
    rw [no_match_on_empty (ty, p) (List.get?_mem hget)] at hm
    cases hm
  exact parse_eq_of_firstMatch text ty g hne
    (firstMatch_eq_some_of patList _ i ty p g hget hm hbefore)

/-- C1 witness: "generate scenarios for user login" is first matched by the
very first declared pattern (GENERATE_SCENARIOS), and parsing returns that
type with target "user login". -/
theorem c1_witness :
    parse "generate scenarios for user login" =
      { command_type := .GENERATE_SCENARIOS, target := some "user login",
        raw_text := "generate scenarios for user login" } := by
  have h := c1_first_match_determines_result "generate scenarios for user login" 0
    .GENERATE_SCENARIOS (patList.get ⟨0, by decide⟩).2 (some "user login".data)
    (by decide) (by decide)
    (fun j q hj _ => absurd hj (Nat.not_lt_zero j))
  exact h.trans (by decide)

/-- C2: pattern priority.  If the (stripped) input matches patterns of two
different command types, with `T1` declared before `T2`, then the parse
result is never `T2`; its type is no later in enumeration order than `T1`
and itself matches.  Moreover the winning pattern is the first matching
entry of the flattened priority list (all entries before it fail, which
fixes both the enumeration order across types and the listed order within
a type), the result's target is that pattern's capture, and the patterns a
parse call tries form a duplicate-free prefix of the declared list, so no
pattern is tried more than once. -/
theorem c2_pattern_priority (text : String) (T1 T2 : CommandType)
    (h12 : typeIdx T1 < typeIdx T2)
    (h1 : matchesType T1 (pyStripL text.data) = true)
    (h2 : matchesType T2 (pyStripL text.data) = true) :
    (parse text).command_type ≠ T2 ∧
    typeIdx (parse text).command_type ≤ typeIdx T1 ∧
    matchesType (parse text).command_type (pyStripL text.data) = true ∧
    (∃ i p g, patList.get? i = some ((parse text).command_type, p) ∧
      psearch p (pyStripL text.data) = some g ∧
      (parse text).target = targetOf g ∧
      ∀ j q, j < i → patList.get? j = some q →
        psearch q.2 (pyStripL text.data) = none) ∧
    (∃ n, triedPats patList (pyStripL text.data) = patList.take n) ∧
    (triedPats patList (pyStripL text.data)).Nodup := by
  have hne : pyStripL text.data ≠ [] := by
    intro h0
    rw [h0] at h2
    rcases (matchesType_iff _ _).mp h2 with ⟨p, hp, hps⟩
    rw [no_match_on_empty (T2, p) hp] at hps
    cases hps
  cases hfm : firstMatch patList (pyStripL text.data) with
  | none =>
    rcases (matchesType_iff _ _).mp h2 with ⟨p, hp, hps⟩
    rw [(firstMatch_eq_none_iff _ _).mp hfm (T2, p) hp] at hps
    cases hps
  | some tg =>
    obtain ⟨ty, g⟩ := tg
    have hparse := parse_eq_of_firstMatch text ty g hne hfm
    have hmin := parse_type_minimal text ty g hfm
    rcases firstMatch_spec _ _ _ _ hfm with ⟨i, p, hget, hm, hb⟩
    have htyM : matchesType ty (pyStripL text.data) = true :=
      (matchesType_iff _ _).mpr ⟨p, List.get?_mem hget, by rw [hm]; rfl⟩
    have hty : (parse text).command_type = ty := by rw [hparse]
    refine ⟨?_, ?_, ?_, ?_, triedPats_take _ _, ?_⟩
    · intro hEq
      rw [hty] at hEq
      have := hmin T1 h1
      rw [hEq] at this
      exact absurd (Nat.lt_of_lt_of_le h12 this) (Nat.lt_irrefl _)
    · rw [hty]; exact hmin T1 h1
    · rw [hty]; exact htyM
    · refine ⟨i, p, g, ?_, hm, ?_, hb⟩
      · rw [hty]; exact hget
      · rw [hparse]
    · rcases triedPats_take patList (pyStripL text.data) with ⟨n, hn⟩
      rw [hn]
      exact List.Nodup.sublist (List.take_sublist n patList) patList_nodup

/-- C2 witness: "preview test ids for checkout" matches both a CODE_REVIEW
pattern (via the substring "review" of "preview") and a MARKER_PREVIEW
pattern; CODE_REVIEW is declared first and indeed wins. -/
theorem c2_witness :
    typeIdx CommandType.CODE_REVIEW < typeIdx CommandType.MARKER_PREVIEW ∧
    matchesType .CODE_REVIEW (pyStripL "preview test ids for checkout".data) = true ∧
    matchesType .MARKER_PREVIEW (pyStripL "preview test ids for checkout".data) = true ∧
    (parse "preview test ids for checkout").command_type ≠ CommandType.MARKER_PREVIEW := by
  refine ⟨by decide, by decide, by decide, ?_⟩
  exact (c2_pattern_priority "preview test ids for checkout" .CODE_REVIEW .MARKER_PREVIEW
    (by decide) (by decide) (by decide)).1

/-- C5, counterexample: for the input " qq " no declared pattern matches,
and the claim says the target is then the full input text; the code sets
the target to the STRIPPED text "qq", which differs from the full input
" qq ". -/
theorem c5_counterexample :
    (patList.all (fun p => (psearch p.2 (pyStripL " qq ".data)).isNone)) = true ∧
    (parse " qq ").command_type = CommandType.UNKNOWN ∧
    (parse " qq ").target = some "qq" ∧
    ("qq" : String) ≠ " qq " := by
  exact ⟨by decide, by decide, by decide, by decide⟩

/-- C5 (amended): when no declared pattern matches, `parse` returns UNKNOWN
with `target` set to the STRIPPED input text (not the full input text);
for empty or whitespace-only input (stripped text empty) it returns
UNKNOWN with no target. -/
theorem c5_unknown_fallback (text : String) :
    (pyStripL text.data = [] →
      parse text = { command_type := .UNKNOWN, raw_text := "" }) ∧
    (pyStripL text.data ≠ [] →
      (∀ p ∈ patList, psearch p.2 (pyStripL text.data) = none) →
      parse text = { command_type := .UNKNOWN, target := some ⟨pyStripL text.data⟩,
                     raw_text := ⟨pyStripL text.data⟩ }) := by
  constructor
  · intro h0
    unfold parse
    rw [h0]
    rfl
  · intro hne hall
    have hfm : firstMatch patList (pyStripL text.data) = none :=
      (firstMatch_eq_none_iff _ _).mpr hall
    unfold parse
    have hemp : (pyStripL text.data).isEmpty = false := by
      cases h : pyStripL text.data with
      | nil => exact absurd h hne
      | cons x l => rfl
    simp only [hemp, Bool.false_eq_true, if_false, hfm]

/-- C5 witness: a whitespace-only input yields UNKNOWN with no target, and
an unmatched non-empty input ("xyzzy") yields UNKNOWN carrying the
stripped text. -/
theorem c5_witness :
    parse "   " = { command_type := .UNKNOWN, raw_text := "" } ∧
    parse "xyzzy" = { command_type := .UNKNOWN, target := some "xyzzy",
                      raw_text := "xyzzy" } := by
  constructor
  · exact (c5_unknown_fallback "   ").1 (by decide)
  · exact ((c5_unknown_fallback "xyzzy").2 (by decide) (by decide)).trans (by decide)

/-! ### The command enhancer (`CommandEnhancer.enhance`) -/

namespace CommandEnhancer

/-- Keywords whose presence marks an authentication-related target. -/
def authWords : List String := ["login", "auth", "signin", "signup", "register", "password"]

/-- Keywords whose presence marks an e-commerce target. -/
def ecomWords : List String := ["cart", "checkout", "payment", "order", "product"]

/-- Keywords whose presence marks a form-related target. -/
def formWords : List String := ["form", "input", "validation", "submit"]

/-- Keywords whose presence marks a navigation target. -/
def navWords : List String := ["navigation", "menu", "link", "route", "page"]

/-- Keywords whose presence marks an API-related target. -/
def apiWords : List String := ["api", "request", "response", "endpoint"]

/-- Python's `any(word in target_lower for word in words)`. -/
def anyWordIn (words : List String) (tl : List Char) : Bool :=
  words.any (fun w => isSubL w.data tl)

/-- The parameters dict produced by the five sequential keyword checks,
given the outcome of each check.  Each `if` mirrors one block of
`enhance`; a later matching block overwrites `category` set earlier. -/
def mkParams (a e f n p : Bool) : EnhParams :=
  let P : EnhParams := {}
  let P := if a then { P with category := some "authentication", priority := some "high" } else P
  let P := if e then { P with category := some "e-commerce", priority := some "high" } else P
  let P := if f then { P with category := some "forms", includes_validation := some true } else P
  let P := if n then { P with category := some "navigation" } else P
  if p then { P with category := some "api", test_type := some "api" } else P

/-- `CommandEnhancer.enhance`: a command with falsy (absent or empty)
target passes through unmodified; otherwise the lower-cased target is
scanned for the five keyword groups and the resulting parameters dict
replaces `parameters`. -/
def enhance (cmd : ParsedCommand) : ParsedCommand :=
  match cmd.target with
  | none => cmd
  | some t =>
      if t = "" then cmd
      else
        let tl := pyLowerL t.data
        { cmd with parameters := some (mkParams (anyWordIn authWords tl)
            (anyWordIn ecomWords tl) (anyWordIn formWords tl)
            (anyWordIn navWords tl) (anyWordIn apiWords tl)) }

/-- The category attached by the LAST matching keyword group, in the fixed
order authentication, e-commerce, forms, navigation, API. -/
def lastCategory (_a e f n p : Bool) : String :=
  if p then "api"
  else if n then "navigation"
  else if f then "forms"
  else if e then "e-commerce"
  else "authentication"

end CommandEnhancer

open CommandEnhancer

/-- C6: when the lower-cased target contains keywords of more than one of
the five fixed groups, `enhance` sets `category` to the category of the
last matching group in the fixed order (each later matching group
overwrites the category set earlier), while keys set only by earlier
groups survive: a matching authentication or e-commerce group leaves
`priority = "high"` and a matching forms group leaves
`includes_validation = true`, regardless of later overwrites of
`category`. -/
theorem c6_last_category_wins (cmd : ParsedCommand) (t : String)
    (htgt : cmd.target = some t) (hne : t ≠ "")
    (htwo : 2 ≤ (anyWordIn authWords (pyLowerL t.data)).toNat
        + (anyWordIn ecomWords (pyLowerL t.data)).toNat
        + (anyWordIn formWords (pyLowerL t.data)).toNat
        + (anyWordIn navWords (pyLowerL t.data)).toNat
        + (anyWordIn apiWords (pyLowerL t.data)).toNat) :
    (enhance cmd).parameters = some (mkParams (anyWordIn authWords (pyLowerL t.data))
        (anyWordIn ecomWords (pyLowerL t.data)) (anyWordIn formWords (pyLowerL t.data))
        (anyWordIn navWords (pyLowerL t.data)) (anyWordIn apiWords (pyLowerL t.data))) ∧
    (mkParams (anyWordIn authWords (pyLowerL t.data))
        (anyWordIn ecomWords (pyLowerL t.data)) (anyWordIn formWords (pyLowerL t.data))
        (anyWordIn navWords (pyLowerL t.data)) (anyWordIn apiWords (pyLowerL t.data))).category
      = some (lastCategory (anyWordIn authWords (pyLowerL t.data))
        (anyWordIn ecomWords (pyLowerL t.data)) (anyWordIn formWords (pyLowerL t.data))
        (anyWordIn navWords (pyLowerL t.data)) (anyWordIn apiWords (pyLowerL t.data))) ∧
    ((anyWordIn authWords (pyLowerL t.data) || anyWordIn ecomWords (pyLowerL t.data)) = true →
      (mkParams (anyWordIn authWords (pyLowerL t.data))
        (anyWordIn ecomWords (pyLowerL t.data)) (anyWordIn formWords (pyLowerL t.data))
        (anyWordIn navWords (pyLowerL t.data)) (anyWordIn apiWords (pyLowerL t.data))).priority
      = some "high") ∧
    (anyWordIn formWords (pyLowerL t.data) = true →
      (mkParams (anyWordIn authWords (pyLowerL t.data))
        (anyWordIn ecomWords (pyLowerL t.data)) (anyWordIn formWords (pyLowerL t.data))
        (anyWordIn navWords (pyLowerL t.data)) (anyWordIn apiWords (pyLowerL t.data))).includes_validation
      = some true) := by
  refine ⟨?_, ?_⟩
  · unfold enhance
    rw [htgt]
    simp only [hne, if_false, if_neg hne]
  · generalize anyWordIn authWords (pyLowerL t.data) = a at htwo ⊢
    generalize anyWordIn ecomWords (pyLowerL t.data) = e at htwo ⊢
    generalize anyWordIn formWords (pyLowerL t.data) = f at htwo ⊢
    generalize anyWordIn navWords (pyLowerL t.data) = n at htwo ⊢
    generalize anyWordIn apiWords (pyLowerL t.data) = p at htwo ⊢
    revert htwo
    revert a e f n p
    decide

/-- C6 witness: the target "login page" matches both the authentication
group ("login") and the navigation group ("page"); the later navigation
group wins the category while `priority = "high"` from the earlier
authentication group survives. -/
theorem c6_witness :
    (enhance { command_type := .GENERATE_SCENARIOS, target := some "login page" }).parameters
        = some { category := some "navigation", priority := some "high" } ∧
    lastCategory true false false true false = "navigation" := by
  have h := c6_last_category_wins
    { command_type := .GENERATE_SCENARIOS, target := some "login page" }
    "login page" rfl (by decide) (by decide)
  refine ⟨?_, by decide⟩
  exact h.1.trans (by decide)

/-! ### Remote service clients (`grpc_clients.py`, `src/grpc_client/marker_client.py`)

A transport-level failure is a `grpc.RpcError` raised by the stub call;
the embedding makes the transport outcome an explicit `Except` input, so a
request method is a total function from the transport outcome to its
returned result — the shape of the Python `try/except grpc.RpcError`
block, in which no transport exception can escape the method. -/

/-- The observable content of a `grpc.RpcError`. -/
structure GrpcError where
  code : String
  details : String
  deriving DecidableEq

/-- A value of the heterogeneous `data` dict of `ServiceResult`. -/
inductive DictVal where
  | s (v : String)
  | n (v : Nat)
  deriving DecidableEq

/-- The `ServiceResult` dataclass of `grpc_clients.py`: `data` defaults to
`None` and `error` to the empty string. -/
structure ServiceResult where
  success : Bool
  data : Option (List (String × DictVal)) := none
  error : String := ""
  deriving DecidableEq

/-- The fields of a `GenerateScenariosResponse` message read by
`ScoutClient.generate_scenarios`. -/
structure ScoutResponse where
  success : Bool
  output_path : String
  scenarios_count : Nat
  components_count : Nat
  error : String
  deriving DecidableEq

namespace ScoutClient

/-- `ScoutClient.generate_scenarios`, as a function of the transport
outcome of `self.stub.GenerateScenarios(request)`. -/
def generate_scenarios (transport : Except GrpcError ScoutResponse) : ServiceResult :=
  match transport with
  | .ok r =>
      { success := r.success,
        data := some [("output_path", .s r.output_path),
                      ("scenarios_count", .n r.scenarios_count),
                      ("components_count", .n r.components_count)],
        error := if r.success then "" else r.error }
  | .error e =>
      { success := false,
        error := "gRPC error: " ++ e.code ++ " - " ++ e.details }

end ScoutClient

/-- The fields of a `RunMarkerResponse` message read by
`MarkerClient.run_marker` (`src/grpc_client/marker_client.py`). -/
structure MarkerResponse where
  success : Bool
  files_processed : Nat
  ids_added : Nat
  duplicate_ids : List String
  error_message : String
  deriving DecidableEq

/-- The dict returned by `MarkerClient.run_marker`; the `except` branch
only sets `success` and `error_message`, so the other keys are optional. -/
structure MarkerRunDict where
  success : Bool
  files_processed : Option Nat := none
  ids_added : Option Nat := none
  duplicate_ids : Option (List String) := none
  error_message : String
  deriving DecidableEq

namespace MarkerClient

/-- `MarkerClient.run_marker`, as a function of the transport outcome of
`self.stub.RunMarker(request)`. -/
def run_marker (transport : Except GrpcError MarkerResponse) : MarkerRunDict :=
  match transport with
  | .ok r =>
      { success := r.success,
        files_processed := some r.files_processed,
        ids_added := some r.ids_added,
        duplicate_ids := some r.duplicate_ids,
        error_message := r.error_message }
  | .error e =>
      { success := false,
        error_message := "gRPC error: " ++ e.details }

end MarkerClient

/-- C3: every transport-level failure of a client request method is caught
inside the method and converted into a returned failure result (success
false, error field carrying the transport error detail); the methods are
total functions of the transport outcome, so no transport exception
reaches the caller, and on transport success they return the well-formed
result mirroring the response. -/
theorem c3_transport_errors_returned (t : Except GrpcError MarkerResponse)
    (t' : Except GrpcError ScoutResponse) :
    (match t with
     | .error e =>
        MarkerClient.run_marker t =
          { success := false, error_message := "gRPC error: " ++ e.details }
     | .ok r => (MarkerClient.run_marker t).success = r.success) ∧
    (match t' with
     | .error e =>
        ScoutClient.generate_scenarios t' =
          { success := false, data := none,
            error := "gRPC error: " ++ e.code ++ " - " ++ e.details }
     | .ok r => (ScoutClient.generate_scenarios t').success = r.success) := by
  constructor
  · cases t with
    | ok r => rfl
    | error e => rfl
  · cases t' with
    | ok r => rfl
    | error e => rfl

/-- C4, counterexample: on a transport success whose response carries
`success = false` (a service-level failure), `ScoutClient.generate_scenarios`
still populates `data`, and when the response's error string is empty the
returned `error` is empty too — so neither "data present iff success" nor
"error non-empty iff not success" holds of every returned ServiceResult. -/
theorem c4_counterexample :
    (ScoutClient.generate_scenarios (.ok
      { success := false, output_path := "", scenarios_count := 0,
        components_count := 0, error := "" })).success = false ∧
    (ScoutClient.generate_scenarios (.ok
      { success := false, output_path := "", scenarios_count := 0,
        components_count := 0, error := "" })).data.isSome = true ∧
    (ScoutClient.generate_scenarios (.ok
      { success := false, output_path := "", scenarios_count := 0,
        components_count := 0, error := "" })).error = "" := by
  exact ⟨rfl, rfl, rfl⟩

/-- C4 (amended): a returned ServiceResult is never partially populated in
the following sense: its `data` mapping is present if and only if the
transport call succeeded (even when the response's `success` flag is
false), its `error` is empty whenever `success` is true, and on a
transport error `success` is false, `data` is absent and `error` is
non-empty. -/
theorem c4_result_shape (t : Except GrpcError ScoutResponse) :
    ((ScoutClient.generate_scenarios t).data.isSome = true ↔ t.isOk = true) ∧
    ((ScoutClient.generate_scenarios t).success = true →
      (ScoutClient.generate_scenarios t).error = "") ∧
    (match t with
     | .ok _ => True
     | .error e =>
        (ScoutClient.generate_scenarios t).success = false ∧
        (ScoutClient.generate_scenarios t).data = none ∧
        (ScoutClient.generate_scenarios t).error =
          "gRPC error: " ++ e.code ++ " - " ++ e.details) := by
  cases t with
  | ok r =>
    refine ⟨by simp [ScoutClient.generate_scenarios, Except.isOk, Except.toBool], ?_, trivial⟩
    intro hs
    have : r.success = true := hs
    simp [ScoutClient.generate_scenarios, this]
  | error e =>
    refine ⟨by simp [ScoutClient.generate_scenarios, Except.isOk, Except.toBool], ?_, rfl, rfl, rfl⟩
    intro hs
    cases hs

/-! ### Characterisation of the leftmost-occurrence search -/

theorem isPrefixOf_nil_iff (p : List Char) : p.isPrefixOf ([] : List Char) = true ↔ p = [] := by
  cases p <;> simp [List.isPrefixOf]

theorem subIdx?_eq_none_iff (pat s : List Char) :
    subIdx? pat s = none ↔ ∀ k, pat.isPrefixOf (s.drop k) = false := by
  induction s with
  | nil =>
    simp only [subIdx?, List.drop_nil]
    constructor
    · intro h k
      by_cases hp : pat.isEmpty
      · rw [if_pos hp] at h; cases h
      · cases hpre : pat.isPrefixOf ([] : List Char) with
        | false => rfl
        | true =>
          have := (isPrefixOf_nil_iff pat).mp hpre
          rw [this] at hp
          simp at hp
    · intro h
      have h0 := h 0
      rw [if_neg ?_]
      intro hp
      rw [(List.isEmpty_iff).mp hp] at h0
      simp [List.isPrefixOf] at h0
  | cons c rest ih =>
    by_cases h0 : pat.isPrefixOf (c :: rest) = true
    · simp only [subIdx?, h0, if_true]
      constructor
      · intro h; cases h
      · intro h
        have := h 0
        simp only [List.drop_zero] at this
        rw [h0] at this; cases this
    · have h0' : pat.isPrefixOf (c :: rest) = false := by
        cases hx : pat.isPrefixOf (c :: rest) with
        | false => rfl
        | true => exact absurd hx h0
      simp only [subIdx?, h0', Bool.false_eq_true, if_false, Option.map_eq_none']
      rw [ih]
      constructor
      · intro h k
        cases k with
        | zero => simpa using h0'
        | succ k' => rw [List.drop_succ_cons]; exact h k'
      · intro h k
        have := h (k + 1)
        rwa [List.drop_succ_cons] at this

theorem subIdx?_eq_some_iff (pat s : List Char) (n : Nat) :
    subIdx? pat s = some n ↔
      pat.isPrefixOf (s.drop n) = true ∧ ∀ k, k < n → pat.isPrefixOf (s.drop k) = false := by
  induction s generalizing n with
  | nil =>
    simp only [subIdx?, List.drop_nil]
    by_cases hp : pat.isEmpty
    · rw [if_pos hp]
      have hpat : pat = [] := List.isEmpty_iff.mp hp
      subst hpat
      constructor
      · intro h
        injection h with h
        subst h
        exact ⟨rfl, fun k hk => absurd hk (Nat.not_lt_zero k)⟩
      · rintro ⟨-, h2⟩
        cases n with
        | zero => rfl
        | succ m =>
          have := h2 0 (Nat.succ_pos m)
          simp [List.isPrefixOf] at this
    · rw [if_neg hp]
      constructor
      · intro h; cases h
      · rintro ⟨h1, -⟩
        rw [(isPrefixOf_nil_iff pat).mp h1] at hp
        simp at hp
  | cons c rest ih =>
    by_cases h0 : pat.isPrefixOf (c :: rest) = true
    · simp only [subIdx?, h0, if_true]
      constructor
      · intro h
        injection h with h
        subst h
        exact ⟨by simpa using h0, fun k hk => absurd hk (Nat.not_lt_zero k)⟩
      · rintro ⟨h1, h2⟩
        cases n with
        | zero => rfl
        | succ m =>
          have := h2 0 (Nat.succ_pos m)
          simp only [List.drop_zero] at this
          rw [h0] at this; cases this
    · have h0' : pat.isPrefixOf (c :: rest) = false := by
        cases hx : pat.isPrefixOf (c :: rest) with
        | false => rfl
        | true => exact absurd hx h0
      simp only [subIdx?, h0', Bool.false_eq_true, if_false]
      constructor
      · intro h
        rcases Option.map_eq_some'.mp h with ⟨m, hm, hmn⟩
        subst hmn
        rcases (ih m).mp hm with ⟨h1, h2⟩
        refine ⟨by simpa [List.drop_succ_cons] using h1, ?_⟩
        intro k hk
        cases k with
        | zero => simpa using h0'
        | succ k' =>
          rw [List.drop_succ_cons]
          exact h2 k' (Nat.lt_of_succ_lt_succ hk)
      · rintro ⟨h1, h2⟩
        cases n with
        | zero =>
          simp only [List.drop_zero] at h1
          rw [h0'] at h1; cases h1
        | succ m =>
          rw [Option.map_eq_some']
          refine ⟨m, (ih m).mpr ⟨by simpa [List.drop_succ_cons] using h1, ?_⟩, rfl⟩
          intro k hk
          have := h2 (k + 1) (Nat.succ_lt_succ hk)
          rwa [List.drop_succ_cons] at this

/-! ### The output writer (`src/output/writer.py`) -/

/-- ASCII model of the regex class `\w`. -/
def isWordB (c : Char) : Bool := c.isAlpha || c.isDigit || c == '_'

namespace OutputWriter

/-- One pass of `re.sub(r'\s+', '_', name)`: each maximal run of
whitespace becomes a single underscore (`prevSpace` remembers whether we
are inside a run). -/
def collapseGo (prevSpace : Bool) : List Char → List Char
  | [] => []
  | c :: rest =>
      if pyIsSpace c then
        if prevSpace then collapseGo true rest
        else '_' :: collapseGo true rest
      else c :: collapseGo false rest

/-- `OutputWriter._sanitize_filename`: drop characters outside `[\w\s-]`,
replace whitespace runs by `_`, lowercase, truncate to 50 characters. -/
def sanitize_filename (name : String) : String :=
  ⟨((collapseGo false (name.data.filter
      (fun c => isWordB c || pyIsSpace c || c == '-'))).map pyToLower).take 50⟩

/-- The literal closing fence. -/
def tick3 : List Char := "```".data

/-- Leftmost match of the pattern `OPENER(.*?)```` (with `re.DOTALL` and a
lazy group): the first occurrence of `opener` that is followed by a
closing fence, paired with the shortest group.  `none` exactly when the
regex fails: if the first `opener` occurrence has no closing fence after
it, no later occurrence has one either. -/
def extractFirst (opener content : List Char) : Option (List Char) :=
  match subIdx? opener content with
  | none => none
  | some i =>
      let after := content.drop (i + opener.length)
      (subIdx? tick3 after).map (fun j => after.take j)

/-- `OutputWriter._extract_code_block`: try ` ```language `, then
` ```language.lower() `, then an unlabeled ` ``` ` fence, each with a lazy
body; fall back to the raw content.  The matched group (or the raw
content) is stripped.  (The source interpolates `language` literally into
the pattern; both call sites pass a lowercase alphabetic language.) -/
def extract_code_block (content language : String) : String :=
  match extractFirst ("```".data ++ language.data ++ ['\n']) content.data with
  | some inner => ⟨pyStripL inner⟩
  | none =>
      match extractFirst ("```".data ++ pyLowerL language.data ++ ['\n']) content.data with
      | some inner => ⟨pyStripL inner⟩
      | none =>
          match extractFirst ("```".data ++ ['\n']) content.data with
          | some inner => ⟨pyStripL inner⟩
          | none => ⟨pyStripL content.data⟩

/-- The output directory as a mapping from file names to contents; a write
prepends, and a read takes the most recent entry, so writes overwrite. -/
def save_scenarios (store : List (String × String)) (content name : String) :
    List (String × String) :=
  (sanitize_filename name ++ ".feature", extract_code_block content "gherkin") :: store

/-- `OutputWriter.read_file`. -/
def read_file (store : List (String × String)) (filename : String) : Option String :=
  (store.find? (fun e => e.1 == filename)).map (fun e => e.2)

theorem prefix_of_append_self (a b l : List Char) (h : (a ++ b).isPrefixOf l = true) :
    a.isPrefixOf l = true := by
  rw [List.isPrefixOf_iff_prefix] at h ⊢
  exact (a.prefix_append b).trans h

theorem extractFirst_structured (opener pre inner post : List Char)
    (hpre : ∀ k, k < pre.length →
      opener.isPrefixOf ((pre ++ (opener ++ (inner ++ (tick3 ++ post)))).drop k) = false)
    (hinner : ∀ k, k < inner.length →
      tick3.isPrefixOf ((inner ++ (tick3 ++ post)).drop k) = false) :
    extractFirst opener (pre ++ (opener ++ (inner ++ (tick3 ++ post)))) = some inner := by
  have h1 : subIdx? opener (pre ++ (opener ++ (inner ++ (tick3 ++ post)))) = some pre.length := by
    rw [subIdx?_eq_some_iff]
    refine ⟨?_, hpre⟩
    rw [List.drop_left]
    rw [List.isPrefixOf_iff_prefix]
    exact opener.prefix_append (inner ++ (tick3 ++ post))
  have h2 : (pre ++ (opener ++ (inner ++ (tick3 ++ post)))).drop (pre.length + opener.length)
      = inner ++ (tick3 ++ post) := by
    rw [show pre ++ (opener ++ (inner ++ (tick3 ++ post)))
          = (pre ++ opener) ++ (inner ++ (tick3 ++ post)) by rw [List.append_assoc]]
    rw [show pre.length + opener.length = (pre ++ opener).length by rw [List.length_append]]
    exact List.drop_left _ _
  have h3 : subIdx? tick3 (inner ++ (tick3 ++ post)) = some inner.length := by
    rw [subIdx?_eq_some_iff]
    refine ⟨?_, hinner⟩
    rw [List.drop_left]
    rw [List.isPrefixOf_iff_prefix]
    exact tick3.prefix_append post
  unfold extractFirst
  rw [h1]
  simp only [h2, h3, Option.map_some']
  rw [show inner ++ (tick3 ++ post) = (inner ++ tick3) ++ post by rw [List.append_assoc]]
  rw [show (inner ++ tick3 ++ post).take inner.length
        = ((inner ++ tick3) ++ post).take inner.length from rfl]
  rw [List.take_append_of_le_length (by simp [List.length_append])]
  rw [List.take_append_of_le_length (Nat.le_refl _)]
  simp

theorem extractFirst_none_of_no_tick (opener ext content : List Char)
    (hop : opener = tick3 ++ ext)
    (h : isSubL tick3 content = false) :
    extractFirst opener content = none := by
  have hnone : subIdx? tick3 content = none := by
    unfold isSubL at h
    cases hx : subIdx? tick3 content with
    | none => rfl
    | some v => rw [hx] at h; cases h
  have hall := (subIdx?_eq_none_iff tick3 content).mp hnone
  have : subIdx? opener content = none := by
    rw [subIdx?_eq_none_iff]
    intro k
    cases hx : opener.isPrefixOf (content.drop k) with
    | false => rfl
    | true =>
      rw [hop] at hx
      have := prefix_of_append_self tick3 ext _ hx
      rw [hall k] at this
      cases this
  unfold extractFirst
  rw [this]

end OutputWriter

namespace OutputWriter

theorem extractFirst_none_of_not_sub (pat s : List Char) (h : isSubL pat s = false) :
    extractFirst pat s = none := by
  unfold isSubL at h
  unfold extractFirst
  cases hx : subIdx? pat s with
  | none => rfl
  | some v => rw [hx] at h; cases h

end OutputWriter

/-- C7: round trip and extraction fallbacks of the output writer.
First, for content containing a fenced block labeled with the requested
language (here the writer's `gherkin`): provided the labeled opener does
not occur earlier and no closing fence cuts the block short, saving the
content and reading the file back yields exactly the block's inner text,
trimmed.  Second, when no block of the requested language exists,
extraction falls back to the first unlabeled fenced block, again trimmed.
Third, with no fence at all, it falls back to the raw content, trimmed. -/
theorem c7_roundtrip_extraction :
    (∀ (store : List (String × String)) (name : String) (pre inner post : List Char),
      (∀ k, k < pre.length →
        ("```gherkin\n".data).isPrefixOf
          ((pre ++ ("```gherkin\n".data ++ (inner ++ (OutputWriter.tick3 ++ post)))).drop k)
            = false) →
      (∀ k, k < inner.length →
        (OutputWriter.tick3).isPrefixOf ((inner ++ (OutputWriter.tick3 ++ post)).drop k)
            = false) →
      OutputWriter.read_file
        (OutputWriter.save_scenarios store
          ⟨pre ++ ("```gherkin\n".data ++ (inner ++ (OutputWriter.tick3 ++ post)))⟩ name)
        (OutputWriter.sanitize_filename name ++ ".feature")
        = some ⟨pyStripL inner⟩) ∧
    (∀ (language : String) (pre inner post : List Char),
      isSubL ("```".data ++ language.data ++ ['\n'])
        (pre ++ ("```\n".data ++ (inner ++ (OutputWriter.tick3 ++ post)))) = false →
      isSubL ("```".data ++ pyLowerL language.data ++ ['\n'])
        (pre ++ ("```\n".data ++ (inner ++ (OutputWriter.tick3 ++ post)))) = false →
      (∀ k, k < pre.length →
        ("```\n".data).isPrefixOf
          ((pre ++ ("```\n".data ++ (inner ++ (OutputWriter.tick3 ++ post)))).drop k)
            = false) →
      (∀ k, k < inner.length →
        (OutputWriter.tick3).isPrefixOf ((inner ++ (OutputWriter.tick3 ++ post)).drop k)
            = false) →
      OutputWriter.extract_code_block
        ⟨pre ++ ("```\n".data ++ (inner ++ (OutputWriter.tick3 ++ post)))⟩ language
        = ⟨pyStripL inner⟩) ∧
    (∀ (content language : String),
      isSubL OutputWriter.tick3 content.data = false →
      OutputWriter.extract_code_block content language = ⟨pyStripL content.data⟩) := by
  refine ⟨?_, ?_, ?_⟩
  · intro store name pre inner post h1 h2
    have hx := OutputWriter.extractFirst_structured ("```gherkin\n".data) pre inner post h1 h2
    have hex : OutputWriter.extract_code_block
        ⟨pre ++ ("```gherkin\n".data ++ (inner ++ (OutputWriter.tick3 ++ post)))⟩ "gherkin"
        = ⟨pyStripL inner⟩ := by
      unfold OutputWriter.extract_code_block
      have hx' : OutputWriter.extractFirst
          ("```".data ++ ("gherkin" : String).data ++ ['\n'])
          ((⟨pre ++ ("```gherkin\n".data ++ (inner ++ (OutputWriter.tick3 ++ post)))⟩ :
              String).data)
          = some inner := hx
      rw [hx']
    unfold OutputWriter.read_file OutputWriter.save_scenarios
    rw [List.find?_cons_of_pos _ (by simp)]
    simp only [Option.map_some']
    rw [hex]
  · intro language pre inner post hn1 hn2 h1 h2
    have e1 : OutputWriter.extractFirst ("```".data ++ language.data ++ ['\n'])
        ((⟨pre ++ ("```\n".data ++ (inner ++ (OutputWriter.tick3 ++ post)))⟩ : String).data)
        = none :=
      OutputWriter.extractFirst_none_of_not_sub _ _ hn1
    have e2 : OutputWriter.extractFirst ("```".data ++ pyLowerL language.data ++ ['\n'])
        ((⟨pre ++ ("```\n".data ++ (inner ++ (OutputWriter.tick3 ++ post)))⟩ : String).data)
        = none :=
      OutputWriter.extractFirst_none_of_not_sub _ _ hn2
    have e3 : OutputWriter.extractFirst ("```".data ++ ['\n'])
        ((⟨pre ++ ("```\n".data ++ (inner ++ (OutputWriter.tick3 ++ post)))⟩ : String).data)
        = some inner :=
      OutputWriter.extractFirst_structured ("```\n".data) pre inner post h1 h2
    unfold OutputWriter.extract_code_block
    rw [e1, e2, e3]
  · intro content language h
    have e1 := OutputWriter.extractFirst_none_of_no_tick
      ("```".data ++ language.data ++ ['\n']) (language.data ++ ['\n']) content.data
      (by simp [OutputWriter.tick3, List.append_assoc]) h
    have e2 := OutputWriter.extractFirst_none_of_no_tick
      ("```".data ++ pyLowerL language.data ++ ['\n']) (pyLowerL language.data ++ ['\n'])
      content.data (by simp [OutputWriter.tick3, List.append_assoc]) h
    have e3 := OutputWriter.extractFirst_none_of_no_tick
      ("```".data ++ ['\n']) (['\n']) content.data (by simp [OutputWriter.tick3]) h
    unfold OutputWriter.extract_code_block
    rw [e1, e2, e3]

/-- C7 witness: a concrete document with a labeled gherkin block round
trips through `save_scenarios` and `read_file` to the trimmed block body. -/
theorem c7_witness :
    OutputWriter.read_file
      (OutputWriter.save_scenarios []
        ⟨"Here:\n".data ++ ("```gherkin\n".data ++
          ("Feature: Login\n".data ++ (OutputWriter.tick3 ++ "\ndone".data)))⟩
        "user login")
      (OutputWriter.sanitize_filename "user login" ++ ".feature")
      = some "Feature: Login" := by
  have h := (c7_roundtrip_extraction).1 [] "user login" "Here:\n".data
    "Feature: Login\n".data "\ndone".data (by decide) (by decide)
  exact h.trans (by decide)

namespace OutputWriter

theorem collapseGo_mem (l : List Char) (b : Bool) (c : Char)
    (h : c ∈ collapseGo b l) : c = '_' ∨ (c ∈ l ∧ pyIsSpace c = false) := by
  induction l generalizing b with
  | nil => simp [collapseGo] at h
  | cons x rest ih =>
    by_cases hx : pyIsSpace x
    · simp only [collapseGo, hx, if_true] at h
      by_cases hb : b
      · rw [if_pos hb] at h
        rcases ih true h with h1 | ⟨h2, h3⟩
        · exact Or.inl h1
        · exact Or.inr ⟨List.mem_cons_of_mem x h2, h3⟩
      · rw [if_neg hb] at h
        rcases List.mem_cons.mp h with h1 | h1
        · exact Or.inl h1
        · rcases ih true h1 with h2 | ⟨h3, h4⟩
          · exact Or.inl h2
          · exact Or.inr ⟨List.mem_cons_of_mem x h3, h4⟩
    · simp only [collapseGo, hx, if_false] at h
      rcases List.mem_cons.mp h with h1 | h1
      · refine Or.inr ⟨h1 ▸ List.mem_cons_self x rest, ?_⟩
        rw [h1]
        cases hy : pyIsSpace x with
        | false => rfl
        | true => exact absurd hy hx
      · rcases ih false h1 with h2 | ⟨h3, h4⟩
        · exact Or.inl h2
        · exact Or.inr ⟨List.mem_cons_of_mem x h3, h4⟩

theorem pyToLower_allowed (c : Char) (hsp : pyIsSpace c = false)
    (hw : (isWordB c || c == '-') = true) :
    (!isUpperB (pyToLower c) && !pyIsSpace (pyToLower c)
      && (isWordB (pyToLower c) || pyToLower c == '-')) = true := by
  cases hf : lowerPairs.find? (fun p => p.1 == c) with
  | none =>
    have hl : pyToLower c = c := by simp [pyToLower, hf]
    have hu : isUpperB c = false := by simp [isUpperB, hf]
    rw [hl, hu, hsp, hw]
    rfl
  | some p =>
    have hm := List.mem_of_find?_eq_some hf
    have hl : pyToLower c = p.2 := by simp [pyToLower, hf]
    rw [hl]
    fin_cases hm <;> decide

end OutputWriter

/-- C9: for every input name, `_sanitize_filename` returns a string of
length at most 50 containing no uppercase letters, no whitespace, and no
characters other than word characters and hyphens. -/
theorem c9_sanitize_filename_charset (name : String) :
    (OutputWriter.sanitize_filename name).data.length ≤ 50 ∧
    ((OutputWriter.sanitize_filename name).data.all
      (fun c => !isUpperB c && !pyIsSpace c && (isWordB c || c == '-'))) = true := by
  constructor
  · show (List.take 50 _).length ≤ 50
    rw [List.length_take]
    exact Nat.min_le_left _ _
  · rw [List.all_eq_true]
    intro c hc
    have hc1 : c ∈ (OutputWriter.collapseGo false (name.data.filter
        (fun c => isWordB c || pyIsSpace c || c == '-'))).map pyToLower :=
      List.mem_of_mem_take hc
    rcases List.mem_map.mp hc1 with ⟨c', hc', hlc⟩
    subst hlc
    rcases OutputWriter.collapseGo_mem _ false c' hc' with h1 | ⟨hmem, hnsp⟩
    · subst h1; decide
    · have hkeep := (List.mem_filter.mp hmem).2
      have hw : (isWordB c' || c' == '-') = true := by
        rcases Bool.or_eq_true_iff.mp hkeep with h2 | h2
        · rcases Bool.or_eq_true_iff.mp h2 with h3 | h3
          · rw [h3]; rfl
          · rw [h3] at hnsp; cases hnsp
        · rw [h2]
          simp
      exact OutputWriter.pyToLower_allowed c' hnsp hw

/-- C4 witness: concrete instantiations of the amended shape theorem on a
transport success and its implication hypothesis. -/
theorem c4_witness :
    ((ScoutClient.generate_scenarios (.ok
      { success := true, output_path := "/out", scenarios_count := 3,
        components_count := 2, error := "" })).error = "") ∧
    ((ScoutClient.generate_scenarios (.ok
      { success := true, output_path := "/out", scenarios_count := 3,
        components_count := 2, error := "" })).data.isSome = true ↔
      (Except.ok (ε := GrpcError)
        { success := true, output_path := "/out", scenarios_count := 3,
          components_count := 2, error := "" } : Except GrpcError ScoutResponse).isOk = true) :=
  ⟨(c4_result_shape _).2.1 rfl, (c4_result_shape _).1⟩

/-! ### The dispatcher (`Synapse` in `src/main.py`)

Each handler is embedded as the sequence of observable actions it
performs, as a function of its target argument and an environment fixing
the outcomes of the external collaborators (LLM crew, file system, Marker
service).  Rich markup tags of the printed strings are presentation and
omitted. -/

/-- Observable dispatcher actions. -/
inductive Act where
  /-- a console message (error or prompt text) -/
  | msg (s : String)
  /-- lazily construct the LLM agent set (`_init_crew`) -/
  | initCrew
  /-- lazily construct and connect the Marker client (`_init_marker`) -/
  | initMarker
  /-- an LLM agent call -/
  | crewCall (op : String)
  /-- a writer save -/
  | save (kind : String)
  /-- print a result panel -/
  | panel (title : String)
  /-- a Marker service request -/
  | markerCall (op : String)
  /-- prompt the user and read an answer -/
  | askInput
  /-- read a local file -/
  | readFile
  deriving DecidableEq

/-- Whether an action calls a remote service client or LLM agent. -/
def Act.isCollaboratorCall : Act → Bool
  | .crewCall _ => true
  | .markerCall _ => true
  | _ => false

/-- Outcomes of the dispatcher's collaborators. -/
structure DispEnv where
  /-- the LLM call returns normally (otherwise it raises) -/
  crewOk : Bool
  /-- detail of the raised exception when it does not -/
  crewErr : String
  /-- the target file exists -/
  fileExists : Bool
  /-- `_init_marker` obtains a connected client -/
  markerConnects : Bool
  /-- `success` field of the Marker result dict -/
  markerSuccess : Bool
  /-- `error_message` of the Marker result dict -/
  markerError : String
  /-- the user answers the yes/no prompt with a word starting with y -/
  userYes : Bool

/-- Python truthiness of an optional string (`if not target:`). -/
def isFalsy : Option String → Bool
  | none => true
  | some t => t == ""

namespace Synapse

/-- `Synapse._generate_scenarios`. -/
def generate_scenarios (env : DispEnv) (target : Option String) : List Act :=
  if isFalsy target then [.msg "Please specify what to generate scenarios for."]
  else
    [.initCrew] ++
      (if env.crewOk then
        [.crewCall "generate_scenarios", .save "scenarios", .panel "Generated Scenarios"]
      else
        [.crewCall "generate_scenarios",
         .msg ("Error generating scenarios: " ++ env.crewErr)])

/-- `Synapse._generate_playwright`. -/
def generate_playwright (env : DispEnv) (target : Option String) : List Act :=
  if isFalsy target then [.msg "Please specify what to generate tests for."]
  else
    [.initCrew, .msg "Generate test scenarios first? (yes/no)", .askInput] ++
      (if env.userYes then
        if env.crewOk then
          [.crewCall "generate_full_suite", .save "full_suite", .panel "Full Test Suite Generated"]
        else [.crewCall "generate_full_suite", .msg ("Error generating tests: " ++ env.crewErr)]
      else
        if env.crewOk then
          [.crewCall "generate_playwright_tests", .save "playwright_tests",
           .panel "Generated Playwright Tests"]
        else
          [.crewCall "generate_playwright_tests",
           .msg ("Error generating tests: " ++ env.crewErr)])

/-- `Synapse._generate_from_file`. -/
def generate_from_file (env : DispEnv) (filepath : Option String) : List Act :=
  if isFalsy filepath then [.msg "Please specify the file path."]
  else if !env.fileExists then [.msg ("File not found: " ++ filepath.getD "")]
  else
    [.readFile, .initCrew] ++
      (if env.crewOk then
        [.crewCall "generate_playwright_tests", .save "playwright_tests",
         .panel "Generated Tests"]
      else
        [.crewCall "generate_playwright_tests",
         .msg ("Error processing file: " ++ env.crewErr)])

/-- `Synapse._code_review`. -/
def code_review (env : DispEnv) (target : Option String) : List Act :=
  if isFalsy target then [.msg "Please specify the file to review."]
  else if !env.fileExists then [.msg ("File not found: " ++ target.getD "")]
  else
    [.readFile, .initCrew] ++
      (if env.crewOk then
        [.crewCall "review_code", .save "review", .panel "Code Review"]
      else [.crewCall "review_code", .msg ("Error reviewing code: " ++ env.crewErr)])

/-- Shared tail of the four Marker handlers after their target guard:
initialise the client, return silently when that failed, otherwise issue
the request and report. -/
def markerBody (env : DispEnv) (op announce okTitle failMsg : String) : List Act :=
  [.initMarker] ++
    (if !env.markerConnects then []
     else
       [.msg announce, .markerCall op] ++
         (if env.markerSuccess then [.panel okTitle]
          else [.msg (failMsg ++ env.markerError)]))

/-- `Synapse._marker_run`. -/
def marker_run (env : DispEnv) (target : Option String) : List Act :=
  if isFalsy target then [.msg "Please specify the project path."]
  else markerBody env "run_marker" ("Running Marker on: " ++ target.getD "")
    "Marker Complete" "Marker failed: "

/-- `Synapse._marker_preview`. -/
def marker_preview (env : DispEnv) (target : Option String) : List Act :=
  if isFalsy target then [.msg "Please specify the project path."]
  else markerBody env "preview_changes" ("Previewing Marker changes for: " ++ target.getD "")
    "Marker Preview" "Preview failed: "

/-- `Synapse._marker_rollback`. -/
def marker_rollback (env : DispEnv) (target : Option String) : List Act :=
  if isFalsy target then
    [.msg "No project specified. Please specify the project path to rollback."]
  else markerBody env "rollback" ("Rolling back Marker changes for: " ++ target.getD "")
    "Rollback Complete" "Rollback failed: "

/-- `Synapse._marker_analyze`. -/
def marker_analyze (env : DispEnv) (target : Option String) : List Act :=
  if isFalsy target then [.msg "Please specify the project path."]
  else markerBody env "analyze_project" ("Analyzing project: " ++ target.getD "")
    "Project Analysis" "Analysis failed: "

end Synapse

/-- C8: for each dispatcher handler whose intent requires a non-empty
target, an empty or missing target makes the handler emit exactly one
user-facing error message and return without any collaborator action: the
emitted trace is a single message, so in particular it contains no remote
service call and no LLM agent call, whatever the environment. -/
theorem c8_empty_target_guard (env : DispEnv) (target : Option String)
    (h : isFalsy target = true) :
    Synapse.generate_scenarios env target
        = [.msg "Please specify what to generate scenarios for."] ∧
    Synapse.generate_playwright env target
        = [.msg "Please specify what to generate tests for."] ∧
    Synapse.generate_from_file env target = [.msg "Please specify the file path."] ∧
    Synapse.code_review env target = [.msg "Please specify the file to review."] ∧
    Synapse.marker_run env target = [.msg "Please specify the project path."] ∧
    Synapse.marker_preview env target = [.msg "Please specify the project path."] ∧
    Synapse.marker_rollback env target
        = [.msg "No project specified. Please specify the project path to rollback."] ∧
    Synapse.marker_analyze env target = [.msg "Please specify the project path."] ∧
    (∀ a ∈ Synapse.generate_scenarios env target ++ Synapse.generate_playwright env target
        ++ Synapse.generate_from_file env target ++ Synapse.code_review env target
        ++ Synapse.marker_run env target ++ Synapse.marker_preview env target
        ++ Synapse.marker_rollback env target ++ Synapse.marker_analyze env target,
      a.isCollaboratorCall = false) := by
  refine ⟨?_, ?_, ?_, ?_, ?_, ?_, ?_, ?_, ?_⟩ <;>
    simp [Synapse.generate_scenarios, Synapse.generate_playwright,
      Synapse.generate_from_file, Synapse.code_review, Synapse.marker_run,
      Synapse.marker_preview, Synapse.marker_rollback, Synapse.marker_analyze,
      h, Act.isCollaboratorCall]

/-- C8 witness: a concrete environment with a missing target. -/
theorem c8_witness :
    isFalsy none = true ∧
    Synapse.marker_run
      { crewOk := true, crewErr := "", fileExists := true, markerConnects := true,
        markerSuccess := true, markerError := "", userYes := true } none
      = [.msg "Please specify the project path."] :=
  ⟨rfl, (c8_empty_target_guard
    { crewOk := true, crewErr := "", fileExists := true, markerConnects := true,
      markerSuccess := true, markerError := "", userYes := true } none rfl).2.2.2.2.1⟩

/-! ### Voice input (`voice_input.py`) -/

/-- The `VoiceStatus` enum. -/
inductive VoiceStatus where
  | LISTENING
  | PROCESSING
  | SUCCESS
  | ERROR
  | TIMEOUT
  deriving DecidableEq

/-- The `VoiceResult` dataclass (the presentational float field
`confidence` plays no role in control flow and is omitted). -/
structure VoiceResult where
  status : VoiceStatus
  text : String := ""
  error : String := ""
  deriving DecidableEq

/-- Whether a recognised text contains the stop phrase, case-insensitively
(`stop_phrase.lower() in result.text.lower()`). -/
def containsStopPhrase (stopPhrase text : String) : Bool :=
  isSubL (pyLowerL stopPhrase.data) (pyLowerL text.data)

namespace VoiceInput

/-- `VoiceInput.listen_continuous`, as a function of the stream of results
the successive `listen()` calls produce.  Returns the list of results
delivered to the callback, in order, together with whether the loop
terminated (`true`) or merely exhausted the modelled stream (`false`).
Per iteration: a SUCCESS result is first checked for the stop phrase —
containing it breaks the loop before any callback — then handed to the
callback, whose `false` return breaks the loop; TIMEOUT and ERROR results
(and any other status) just continue the loop. -/
def listen_continuous (stream : List VoiceResult) (callback : VoiceResult → Bool)
    (stopPhrase : String) : List VoiceResult × Bool :=
  match stream with
  | [] => ([], false)
  | r :: rest =>
      if r.status = .SUCCESS then
        if containsStopPhrase stopPhrase r.text then ([], true)
        else if callback r then
          let t := listen_continuous rest callback stopPhrase
          (r :: t.1, t.2)
        else ([r], true)
      else listen_continuous rest callback stopPhrase

end VoiceInput

/-- C10: in `listen_continuous`, (1) the callback is invoked only on
results with status SUCCESS, and never on one containing the stop phrase;
(2) a SUCCESS result containing the stop phrase (case-insensitively)
terminates the loop immediately with no callback invocation at all for
it; (3) a stream of only TIMEOUT and ERROR results never invokes the
callback and never terminates the loop. -/
theorem c10_listen_continuous (stream : List VoiceResult)
    (callback : VoiceResult → Bool) (stopPhrase : String) :
    (((VoiceInput.listen_continuous stream callback stopPhrase).1).all
      (fun r => r.status == .SUCCESS && !containsStopPhrase stopPhrase r.text) = true) ∧
    (∀ r rest, r.status = .SUCCESS → containsStopPhrase stopPhrase r.text = true →
      VoiceInput.listen_continuous (r :: rest) callback stopPhrase = ([], true)) ∧
    ((∀ r ∈ stream, r.status = .TIMEOUT ∨ r.status = .ERROR) →
      VoiceInput.listen_continuous stream callback stopPhrase = ([], false)) := by
  refine ⟨?_, ?_, ?_⟩
  · induction stream with
    | nil => rfl
    | cons r rest ih =>
      by_cases hs : r.status = .SUCCESS
      · by_cases hstop : containsStopPhrase stopPhrase r.text = true
        · simp [VoiceInput.listen_continuous, hs, hstop]
        · by_cases hcb : callback r = true
          · simp only [VoiceInput.listen_continuous, hs, if_true, hstop, hcb,
              Bool.false_eq_true, if_false, List.all_cons]
            refine Bool.and_eq_true_iff.mpr ⟨?_, ih⟩
            simp [hs, hstop]
          · simp [VoiceInput.listen_continuous, hs, hstop, hcb]
      · simpa [VoiceInput.listen_continuous, hs] using ih
  · intro r rest hs hstop
    simp [VoiceInput.listen_continuous, hs, hstop]
  · intro hall
    induction stream with
    | nil => rfl
    | cons r rest ih =>
      have hr := hall r (List.mem_cons_self r rest)
      have hs : ¬(r.status = .SUCCESS) := by
        rcases hr with h1 | h1 <;> rw [h1] <;> intro h2 <;> cases h2
      simp only [VoiceInput.listen_continuous, hs, if_false]
      exact ih (fun x hx => hall x (List.mem_cons_of_mem r hx))

/-- C10 witness: a TIMEOUT and an ERROR result neither reach the callback
nor stop the loop, and a SUCCESS result containing the stop phrase stops
the loop before the callback sees it. -/
theorem c10_witness :
    (∀ r ∈ [({ status := .TIMEOUT, error := "No speech detected within timeout" } : VoiceResult),
            { status := .ERROR, error := "Could not understand audio" }],
        r.status = VoiceStatus.TIMEOUT ∨ r.status = VoiceStatus.ERROR) ∧
    VoiceInput.listen_continuous
      [{ status := .TIMEOUT, error := "No speech detected within timeout" },
       { status := .ERROR, error := "Could not understand audio" }]
      (fun _ => true) "stop" = ([], false) ∧
    VoiceInput.listen_continuous
      [{ status := .SUCCESS, text := "please STOP now" }] (fun _ => true) "stop"
      = ([], true) := by
  refine ⟨by decide, ?_, ?_⟩
  · exact (c10_listen_continuous _ (fun _ => true) "stop").2.2 (by decide)
  · exact (c10_listen_continuous ([] : List VoiceResult) (fun _ => true) "stop").2.1
      { status := .SUCCESS, text := "please STOP now" } [] rfl (by decide)
